import Mathlib

/-
Verification development for the beam-report generator (docGenerator.py).

The program converts a tabular dataset (position x, shear force, bending
moment) into a structured report document.  This file gives a shallow
embedding of its data-to-document pipeline:

  * numeric values are modelled as exact rationals (the Python floats are
    used only for small exact decimal data and simple arithmetic);
  * `forcedata` models the column validation step of docGenerator.forcedata
    (the pandas Excel I/O and dtype checks live at the collaborator
    boundary, so the function here receives the workbook column labels);
  * `sfdDiagram` / `bmdDiagram` model the axis-bound and coordinate
    computations of docGenerator.sfdplot / docGenerator.bmdplot,
    and `sfdplot` / `bmdplot` wrap them with the implicit ValueError that
    Python min/max raise on an empty sequence;
  * `buildDoc` models the document model assembled by docGenerator.reportgen
    (the pylatex Document tree, before the external pdflatex render), and
    `reportgen` adds the data-consistency guard at its top;
  * `fmt2` models the f-string two-decimal formatting used throughout
    (ties round half-up here where CPython rounds the underlying binary
    float half-even; no statement below depends on tie inputs).

In LaTeX strings below, \x7b and \x7d are the literal braces.
-/

namespace DocGen

/-- Absolute value of one entry, as np.abs computes it elementwise. -/
def absQ (q : ℚ) : ℚ := if q < 0 then -q else q

/-- Python min over a value series (0 for the empty series, on which Python
raises ValueError instead; callers guard for nonemptiness). -/
def listMin : List ℚ → ℚ
  | [] => 0
  | a :: l => l.foldl min a

/-- Python max over a value series (0 for the empty series, on which Python
raises ValueError instead; callers guard for nonemptiness). -/
def listMax : List ℚ → ℚ
  | [] => 0
  | a :: l => l.foldl max a

/-- First index whose key value is minimal over the whole list: the index
np.argmin returns on the mapped series. -/
def argminKey (key : ℚ → ℚ) (l : List ℚ) : Nat :=
  l.findIdx (fun v => decide (∀ w ∈ l, key v ≤ key w))

/-- First index whose key value is maximal over the whole list: the index
np.argmax returns on the mapped series. -/
def argmaxKey (key : ℚ → ℚ) (l : List ℚ) : Nat :=
  l.findIdx (fun v => decide (∀ w ∈ l, key w ≤ key v))

/-- np.argmin(np.abs(sval)), line 388 of docGenerator.py. -/
def argminAbs (l : List ℚ) : Nat := argminKey absQ l

/-- np.argmax(np.abs(sval)), line 459 of docGenerator.py. -/
def argmaxAbs (l : List ℚ) : Nat := argmaxKey absQ l

/-- np.argmax(bmval), line 413 of docGenerator.py. -/
def argmaxQ (l : List ℚ) : Nat := argmaxKey (fun v => v) l

/-- Value of a two-decimal rendering, read back as a number: formatting v
with f-string .2f and parsing the decimal string is rounding 100*v to an
integer and dividing by 100 (two-decimal strings are exact in decimal). -/
def fmt2Val (v : ℚ) : ℚ := (round (100 * v) : ℤ) / 100

/-- Two-digit zero-padded rendering of a value below 100. -/
def pad2 (n : Nat) : String := if n < 10 then "0" ++ toString n else toString n

/-- The f-string .2f rendering of a value. -/
def fmt2 (v : ℚ) : String :=
  let n : ℤ := round (100 * v)
  (if n < 0 then "-" else "") ++ toString (n.natAbs / 100) ++ "." ++ pad2 (n.natAbs % 100)

/-- pandas str.strip on one column label: drop whitespace at both ends. -/
def strip (s : String) : String :=
  ⟨((s.data.dropWhile Char.isWhitespace).reverse.dropWhile Char.isWhitespace).reverse⟩

/-- Python str.lower on one label, used only to state the (refuted)
case-insensitive reading of the validation contract. -/
def lower (s : String) : String := ⟨s.data.map Char.toLower⟩

/-- The required column labels of docGenerator.forcedata, line 20. -/
def required_columns : List String := ["x", "Shear force", "Bending Moment"]

/-- Outcome of the column validation: the cleaned labels, or the missing
required labels (on which forcedata prints an error and exits). -/
inductive SchemaCheck where
  | ok (cols : List String)
  | missingColumns (missing : List String)
  deriving DecidableEq, Repr

/-- Column validation of docGenerator.forcedata, lines 16-26: clean the
labels with str.strip, then require every entry of required_columns to be
present, by exact (case-sensitive) comparison. -/
def forcedata (columns : List String) : SchemaCheck :=
  let cols := columns.map strip
  let missing := required_columns.filter (fun c => !(cols.contains c))
  if missing.isEmpty then SchemaCheck.ok cols else SchemaCheck.missingColumns missing

/-- Geometry of one plot: the coordinate pairs and the axis bounds that
sfdplot/bmdplot embed in the tikz axis options. -/
structure Diagram where
  coordinates : List (ℚ × ℚ)
  yMin : ℚ
  yMax : ℚ
  xMin : ℚ
  xMax : ℚ
  deriving DecidableEq, Repr

/-- srange of docGenerator.sfdplot, lines 52-56: the value range, replaced
by max(abs(smin), abs(smax), 1.0) when below 1e-6. -/
def sfdSRange (sval : List ℚ) : ℚ :=
  if listMax sval - listMin sval < 1 / 1000000 then
    max (max (absQ (listMin sval)) (absQ (listMax sval))) 1
  else listMax sval - listMin sval

/-- bmrange of docGenerator.bmdplot, lines 115-119: same computation as
sfdSRange, duplicated in the source. -/
def bmdBMRange (bmval : List ℚ) : ℚ :=
  if listMax bmval - listMin bmval < 1 / 1000000 then
    max (max (absQ (listMin bmval)) (absQ (listMax bmval))) 1
  else listMax bmval - listMin bmval

/-- Geometry computed by docGenerator.sfdplot, lines 46-75: coordinates in
input order, y bounds with a 10 percent margin on both sides, x bounds
fixed at [0, max(xval)]. -/
def sfdDiagram (xval sval : List ℚ) : Diagram :=
  { coordinates := xval.zip sval
    yMin := listMin sval - (1 / 10) * sfdSRange sval
    yMax := listMax sval + (1 / 10) * sfdSRange sval
    xMin := 0
    xMax := listMax xval }

/-- Geometry computed by docGenerator.bmdplot, lines 109-138: as
sfdDiagram, except the lower y bound is anchored at 0 when the series
minimum is not negative (line 121). -/
def bmdDiagram (xval bmval : List ℚ) : Diagram :=
  { coordinates := xval.zip bmval
    yMin := if listMin bmval < 0 then listMin bmval - (1 / 10) * bmdBMRange bmval else 0
    yMax := listMax bmval + (1 / 10) * bmdBMRange bmval
    xMin := 0
    xMax := listMax xval }

/-- The only failure a diagram computation can raise: the ValueError of
Python min/max on an empty sequence.  No other error path exists in
sfdplot/bmdplot. -/
inductive PlotError where
  | valueError
  deriving DecidableEq, Repr

/-- docGenerator.sfdplot as a fallible computation: ValueError on an empty
series (from min/max), otherwise the geometry. -/
def sfdplot (xval sval : List ℚ) : Except PlotError Diagram :=
  if sval.isEmpty || xval.isEmpty then Except.error PlotError.valueError
  else Except.ok (sfdDiagram xval sval)

/-- docGenerator.bmdplot as a fallible computation: ValueError on an empty
series (from min/max), otherwise the geometry. -/
def bmdplot (xval bmval : List ℚ) : Except PlotError Diagram :=
  if bmval.isEmpty || xval.isEmpty then Except.error PlotError.valueError
  else Except.ok (bmdDiagram xval bmval)

/-- The tabular model built by docGenerator.forcetable, lines 172-192:
bold header row and one two-decimal formatted row per record. -/
structure Tab where
  header : List String
  rows : List (List String)
  deriving DecidableEq, Repr

/-- docGenerator.forcetable on the three validated columns. -/
def forcetable (xval sval bmval : List ℚ) : Tab :=
  { header := ["x", "Shear force", "Bending Moment"]
    rows := (xval.zip (sval.zip bmval)).map
      (fun r => [fmt2 r.1, fmt2 r.2.1, fmt2 r.2.2]) }

/-- One content block of the document model: each constructor corresponds
to one kind of doc.append / doc.preamble.append call in reportgen. -/
inductive Block where
  | text (s : String)
  | bold (s : String)
  | italic (s : String)
  | latex (s : String)
  | newPage
  | command (name arg : String)
  | figureImage (path width caption : String)
  | figureTikz (d : Diagram) (caption : String)
  | dataTable (t : Tab) (caption : String)
  deriving DecidableEq, Repr

/-- One child of a Section: a plain content block or a Subsection with its
blocks, in append order. -/
inductive SecItem where
  | blk (b : Block)
  | sub (title : String) (blocks : List Block)
  deriving DecidableEq, Repr

/-- One Section of the document with its children in append order. -/
structure Sec where
  title : String
  items : List SecItem
  deriving DecidableEq, Repr

/-- One top-level child of the document body: a block appended directly to
doc, or a Section created with doc.create. -/
inductive DocItem where
  | blk (b : Block)
  | sec (s : Sec)
  deriving DecidableEq, Repr

/-- The document model of reportgen: packages, preamble and body children
in append order. -/
structure Doc where
  packages : List String
  preamble : List Block
  body : List DocItem
  deriving DecidableEq, Repr

/-- x position reported for the zero shear crossing, line 389:
xval[np.argmin(np.abs(sval))]. -/
def zeroShearPos (xval sval : List ℚ) : ℚ := xval.getD (argminAbs sval) 0

/-- x position reported for the maximum moment, line 414:
xval[np.argmax(bmval)]. -/
def maxMomentPos (xval bmval : List ℚ) : ℚ := xval.getD (argmaxQ bmval) 0

/-- x position reported for the maximum absolute shear, line 460:
xval[np.argmax(np.abs(sval))]. -/
def maxShearPos (xval sval : List ℚ) : ℚ := xval.getD (argmaxAbs sval) 0

/-- Shear force value reported as Magnitude in Critical Sections, line 462:
the signed entry sval[np.argmax(np.abs(sval))], not its absolute value. -/
def maxShearMagnitude (sval : List ℚ) : ℚ := sval.getD (argmaxAbs sval) 0

/-- Packages added in reportgen, lines 223-230. -/
def documentPackages : List String :=
  ["graphicx", "float", "amsmath", "tikz", "pgfplots", "booktabs", "hyperref", "fancyhdr"]

/-- Preamble entries of reportgen, lines 233-248. -/
def documentPreamble : List Block :=
  [ Block.latex "\\pgfplotsset\x7bcompat=1.18\x7d",
    Block.latex "\\hypersetup\x7bcolorlinks=true, linkcolor=blue, urlcolor=blue\x7d",
    Block.latex "\\pagestyle\x7bfancy\x7d",
    Block.latex "\\fancyhf\x7b\x7d",
    Block.latex "\\fancyhead[L]\x7bBeam Analysis Report\x7d",
    Block.latex "\\fancyhead[R]\x7b\\thepage\x7d",
    Block.latex "\\fancyfoot[C]\x7bSimply Supported Beam - Structural Analysis\x7d",
    Block.command "title" "Beam Structural Analysis Report",
    Block.command "author" "Engineering Analysis System",
    Block.command "date" "\\today" ]

/-- Body blocks appended before the first Section (title, abstract, table
of contents), lines 249-269. -/
def frontMatter : List DocItem :=
  [ DocItem.blk (Block.latex "\\maketitle"),
    DocItem.blk (Block.latex "\\vspace\x7b2cm\x7d"),
    DocItem.blk (Block.latex "\\begin\x7bcenter\x7d"),
    DocItem.blk (Block.latex "\\large"),
    DocItem.blk (Block.bold "Abstract"),
    DocItem.blk (Block.latex "\\end\x7bcenter\x7d"),
    DocItem.blk (Block.latex "\\normalsize"),
    DocItem.blk (Block.latex "\\vspace\x7b0.5cm\x7d"),
    DocItem.blk (Block.text ("This report presents a comprehensive structural analysis of a simply supported beam "
      ++ "under various loading conditions. The analysis includes the calculation and visualization "
      ++ "of shear force and bending moment distributions along the beam length. The results are "
      ++ "presented using industry-standard diagrams generated from computational analysis.")),
    DocItem.blk Block.newPage,
    DocItem.blk (Block.latex "\\tableofcontents"),
    DocItem.blk Block.newPage ]

/-- Blocks of the Beam Description subsection, lines 275-288: the figure
when the beam image exists, the italic note otherwise. -/
def beamDescriptionBlocks (imgPath : String) (imgExists : Bool) : List Block :=
  [ Block.text ("This analysis examines a simply supported beam, which is one of the most "
      ++ "fundamental structural elements in engineering. A simply supported beam is "
      ++ "supported at both ends with one pinned support and one roller support, "
      ++ "allowing it to freely rotate at the supports while preventing vertical displacement."),
    Block.latex "\\vspace\x7b0.5cm\x7d" ] ++
  (if imgExists then
    [Block.figureImage imgPath "0.8\\textwidth" "Simply Supported Beam Configuration"]
  else
    [Block.italic ("Note: Beam image not found at " ++ imgPath)])

/-- Blocks of the Analysis Methodology subsection, lines 290-301. -/
def analysisMethodologyBlocks : List Block :=
  [ Block.text ("The structural analysis employs classical beam theory to determine internal "
      ++ "force distributions. The methodology consists of:"),
    Block.latex "\\vspace\x7b0.3cm\x7d",
    Block.latex "\\begin\x7benumerate\x7d",
    Block.latex "\\item Data extraction from computational analysis results",
    Block.latex "\\item Validation of equilibrium conditions",
    Block.latex "\\item Generation of shear force diagrams using discrete data points",
    Block.latex "\\item Construction of bending moment diagrams with smooth interpolation",
    Block.latex "\\item Identification of critical sections and maximum values",
    Block.latex "\\end\x7benumerate\x7d" ]

/-- Blocks of the Data Source subsection, lines 303-319. -/
def dataSourceBlocks (excelName : String) (npoints : Nat) (beamLength : ℚ) : List Block :=
  [ Block.text ("The force and moment data analyzed in this report are extracted from "
      ++ "the provided Excel spreadsheet. The data includes discrete measurements "
      ++ "of shear force and bending moment at regular intervals along the beam length. "
      ++ "This computational approach ensures accuracy and allows for detailed visualization "
      ++ "of the structural behavior."),
    Block.latex "\\vspace\x7b0.3cm\x7d",
    Block.latex "\\noindent",
    Block.bold "Data file: ",
    Block.text excelName,
    Block.latex "\\\\",
    Block.bold "Number of data points: ",
    Block.text (toString npoints ++ " positions along the beam"),
    Block.latex "\\\\",
    Block.bold "Beam length: ",
    Block.text (fmt2 beamLength ++ " m") ]

/-- The Introduction section, lines 272-319. -/
def introSection (excelName imgPath : String) (imgExists : Bool) (xval : List ℚ)
    (npoints : Nat) : Sec :=
  { title := "Introduction"
    items :=
      [ SecItem.sub "Beam Description" (beamDescriptionBlocks imgPath imgExists),
        SecItem.sub "Analysis Methodology" analysisMethodologyBlocks,
        SecItem.sub "Data Source" (dataSourceBlocks excelName npoints (listMax xval)) ] }

/-- Blocks of the Data Summary subsection, lines 339-360. -/
def dataSummaryBlocks (sval bmval : List ℚ) : List Block :=
  [ Block.text "Statistical summary of the extracted data:",
    Block.latex "\\vspace\x7b0.3cm\x7d",
    Block.latex "\\noindent",
    Block.bold "Shear Force Statistics:",
    Block.latex "\\\\",
    Block.text ("Maximum: " ++ fmt2 (listMax sval) ++ " kN"),
    Block.latex "\\\\",
    Block.text ("Minimum: " ++ fmt2 (listMin sval) ++ " kN"),
    Block.latex "\\\\",
    Block.text ("Range: " ++ fmt2 (listMax sval - listMin sval) ++ " kN"),
    Block.latex "\\vspace\x7b0.3cm\x7d",
    Block.latex "\\noindent",
    Block.bold "Bending Moment Statistics:",
    Block.latex "\\\\",
    Block.text ("Maximum: " ++ fmt2 (listMax bmval) ++ " kN·m"),
    Block.latex "\\\\",
    Block.text ("Minimum: " ++ fmt2 (listMin bmval) ++ " kN·m"),
    Block.latex "\\\\",
    Block.text ("Range: " ++ fmt2 (listMax bmval - listMin bmval) ++ " kN·m") ]

/-- The Input Data section, lines 324-360. -/
def inputDataSection (xval sval bmval : List ℚ) : Sec :=
  { title := "Input Data"
    items :=
      [ SecItem.blk (Block.text ("The following table presents the complete force and moment data extracted from "
          ++ "the Excel file. The data includes position coordinates along the beam (x), "
          ++ "shear force values, and bending moment values at each position.")),
        SecItem.blk (Block.latex "\\vspace\x7b0.5cm\x7d"),
        SecItem.blk (Block.dataTable (forcetable xval sval bmval) "Force and Moment Data"),
        SecItem.blk (Block.latex "\\vspace\x7b0.5cm\x7d"),
        SecItem.sub "Data Summary" (dataSummaryBlocks sval bmval) ] }

/-- Blocks of the Shear Force Diagram subsection, lines 373-396, including
the zero shear crossing observation of lines 387-389. -/
def sfdSubsectionBlocks (xval sval : List ℚ) : List Block :=
  [ Block.bold "Definition: ",
    Block.text ("A Shear Force Diagram (SFD) is a graphical representation showing the variation "
      ++ "of shear force along the length of the beam. Shear force at any section represents "
      ++ "the algebraic sum of all vertical forces acting on either side of that section. "
      ++ "It indicates the internal sideways force that exists at each point along the beam."),
    Block.latex "\\vspace\x7b0.3cm\x7d",
    Block.latex "\\noindent",
    Block.bold "Key Observations:",
    Block.latex "\\begin\x7bitemize\x7d",
    Block.latex ("\\item Maximum positive shear force: " ++ fmt2 (listMax sval) ++ " kN"),
    Block.latex ("\\item Maximum negative shear force: " ++ fmt2 (listMin sval) ++ " kN"),
    Block.latex ("\\item Zero shear occurs at: " ++ fmt2 (zeroShearPos xval sval) ++ " m"),
    Block.latex "\\end\x7bitemize\x7d",
    Block.latex "\\vspace\x7b0.5cm\x7d",
    Block.figureTikz (sfdDiagram xval sval) "Shear Force Diagram" ]

/-- Blocks of the Bending Moment Diagram subsection, lines 400-422. -/
def bmdSubsectionBlocks (xval bmval : List ℚ) : List Block :=
  [ Block.bold "Definition: ",
    Block.text ("A Bending Moment Diagram (BMD) illustrates the variation of bending moment "
      ++ "along the beam length. Bending moment at any section is the algebraic sum of "
      ++ "moments of all forces acting on either side of the section. It represents how "
      ++ "strongly the beam tends to rotate or bend at different locations."),
    Block.latex "\\vspace\x7b0.3cm\x7d",
    Block.latex "\\noindent",
    Block.bold "Key Observations:",
    Block.latex "\\begin\x7bitemize\x7d",
    Block.latex ("\\item Maximum bending moment: " ++ fmt2 (listMax bmval) ++ " kN·m"),
    Block.latex ("\\item Location of maximum moment: " ++ fmt2 (maxMomentPos xval bmval) ++ " m"),
    Block.latex ("\\item Moment at supports: " ++ fmt2 (bmval.getD 0 0) ++ " kN·m (left), "
      ++ fmt2 (bmval.getD (bmval.length - 1) 0) ++ " kN·m (right)"),
    Block.latex "\\end\x7bitemize\x7d",
    Block.latex "\\vspace\x7b0.5cm\x7d",
    Block.figureTikz (bmdDiagram xval bmval) "Bending Moment Diagram" ]

/-- Blocks of the Analysis Summary subsection, lines 424-437. -/
def analysisSummaryBlocks (xval bmval : List ℚ) : List Block :=
  [ Block.text "The structural analysis reveals important characteristics of the beam behavior:",
    Block.latex "\\vspace\x7b0.3cm\x7d",
    Block.latex "\\begin\x7benumerate\x7d",
    Block.latex ("\\item The shear force diagram shows the distribution of internal "
      ++ "vertical forces along the beam length."),
    Block.latex ("\\item The bending moment diagram exhibits the characteristic pattern "
      ++ "expected for the given loading configuration."),
    Block.latex ("\\item Maximum bending moment occurs at " ++ fmt2 (maxMomentPos xval bmval)
      ++ " m, " ++ "which is the critical section for design purposes."),
    Block.latex ("\\item The support reactions can be inferred from the shear force "
      ++ "values at the beam ends."),
    Block.latex "\\end\x7benumerate\x7d" ]

/-- The Structural Analysis section, lines 365-437. -/
def structuralAnalysisSection (xval sval bmval : List ℚ) : Sec :=
  { title := "Structural Analysis"
    items :=
      [ SecItem.blk (Block.text ("This section presents the graphical analysis of the beam through Shear Force "
          ++ "and Bending Moment Diagrams. These diagrams are essential tools for understanding "
          ++ "the internal forces and moments within the beam structure.")),
        SecItem.blk (Block.latex "\\vspace\x7b0.5cm\x7d"),
        SecItem.sub "Shear Force Diagram (SFD)" (sfdSubsectionBlocks xval sval),
        SecItem.blk Block.newPage,
        SecItem.sub "Bending Moment Diagram (BMD)" (bmdSubsectionBlocks xval bmval),
        SecItem.sub "Analysis Summary" (analysisSummaryBlocks xval bmval) ] }

/-- Blocks of the Critical Sections subsection, lines 443-462: the maximum
shear Magnitude is the signed value sval[np.argmax(np.abs(sval))]. -/
def criticalSectionsBlocks (xval sval bmval : List ℚ) : List Block :=
  [ Block.text "Based on the analysis, the following critical sections have been identified:",
    Block.latex "\\vspace\x7b0.3cm\x7d",
    Block.latex "\\noindent",
    Block.bold "Maximum Bending Moment:",
    Block.latex "\\\\",
    Block.text ("Location: " ++ fmt2 (maxMomentPos xval bmval) ++ " m from left support"),
    Block.latex "\\\\",
    Block.text ("Magnitude: " ++ fmt2 (listMax bmval) ++ " kN·m"),
    Block.latex "\\vspace\x7b0.3cm\x7d",
    Block.latex "\\noindent",
    Block.bold "Maximum Shear Force:",
    Block.latex "\\\\",
    Block.text ("Location: " ++ fmt2 (maxShearPos xval sval) ++ " m from left support"),
    Block.latex "\\\\",
    Block.text ("Magnitude: " ++ fmt2 (maxShearMagnitude sval) ++ " kN") ]

/-- Blocks of the Design Implications subsection, lines 464-477. -/
def designImplicationsBlocks (xval bmval : List ℚ) : List Block :=
  [ Block.text "The analysis results have the following implications for structural design:",
    Block.latex "\\vspace\x7b0.3cm\x7d",
    Block.latex "\\begin\x7bitemize\x7d",
    Block.latex ("\\item The section at " ++ fmt2 (maxMomentPos xval bmval) ++ " m "
      ++ "requires maximum flexural capacity to resist bending."),
    Block.latex ("\\item Sections near the supports must be designed to resist "
      ++ "maximum shear forces."),
    Block.latex ("\\item The moment distribution indicates the need for adequate "
      ++ "section modulus throughout the beam length."),
    Block.latex ("\\item Support reactions and connection details must be designed "
      ++ "based on the shear force values at beam ends."),
    Block.latex "\\end\x7bitemize\x7d" ]

/-- The Engineering Interpretation section, lines 441-477. -/
def engineeringSection (xval sval bmval : List ℚ) : Sec :=
  { title := "Engineering Interpretation"
    items :=
      [ SecItem.sub "Critical Sections" (criticalSectionsBlocks xval sval bmval),
        SecItem.sub "Design Implications" (designImplicationsBlocks xval bmval) ] }

/-- The Conclusion section, lines 481-502; its final block carries the
datetime.now() timestamp of line 502. -/
def conclusionSection (now : String) : Sec :=
  { title := "Conclusion"
    items :=
      [ SecItem.blk (Block.text ("This report has presented a comprehensive structural analysis of a simply supported beam, "
          ++ "including detailed shear force and bending moment diagrams generated using advanced "
          ++ "computational techniques. The analysis demonstrates:")),
        SecItem.blk (Block.latex "\\vspace\x7b0.3cm\x7d"),
        SecItem.blk (Block.latex "\\begin\x7bitemize\x7d"),
        SecItem.blk (Block.latex "\\item Clear visualization of internal force distributions"),
        SecItem.blk (Block.latex "\\item Identification of critical sections for design"),
        SecItem.blk (Block.latex "\\item Verification of expected structural behavior"),
        SecItem.blk (Block.latex "\\item Professional presentation using industry-standard diagrams"),
        SecItem.blk (Block.latex "\\end\x7bitemize\x7d"),
        SecItem.blk (Block.latex "\\vspace\x7b0.5cm\x7d"),
        SecItem.blk (Block.text ("These results provide essential information for structural design and safety assessment "
          ++ "of the beam under the specified loading conditions. The generated diagrams and tabulated "
          ++ "data serve as reference documentation for subsequent design phases.")),
        SecItem.blk (Block.latex "\\vspace\x7b0.5cm\x7d"),
        SecItem.blk (Block.latex "\\noindent"),
        SecItem.blk (Block.bold "Report generated: "),
        SecItem.blk (Block.text now) ] }

/-- The document model assembled by reportgen, lines 210-502, for a
validated dataset: five sections in fixed order, separated by page breaks,
preceded by the front matter.  The argument now is the
datetime.now().strftime rendering read at line 502. -/
def buildDoc (excelName imgPath : String) (imgExists : Bool)
    (xval sval bmval : List ℚ) (now : String) : Doc :=
  { packages := documentPackages
    preamble := documentPreamble
    body := frontMatter ++
      [ DocItem.sec (introSection excelName imgPath imgExists xval xval.length),
        DocItem.blk Block.newPage,
        DocItem.sec (inputDataSection xval sval bmval),
        DocItem.blk Block.newPage,
        DocItem.sec (structuralAnalysisSection xval sval bmval),
        DocItem.blk Block.newPage,
        DocItem.sec (engineeringSection xval sval bmval),
        DocItem.blk Block.newPage,
        DocItem.sec (conclusionSection now) ] }

/-- Fatal outcomes of the report pipeline: the length-mismatch abort of
lines 205-208 (the IntegrityError of the design), and the ValueError that
Python min/max raise mid-build on an empty dataset. -/
inductive RunError where
  | integrityError
  | valueError
  deriving DecidableEq, Repr

/-- docGenerator.reportgen after column validation: abort with no document
when the three arrays differ in length (lines 205-208), or on an empty
dataset (min/max of an empty sequence at line 319); otherwise the full
document model. -/
def reportgen (excelName imgPath : String) (imgExists : Bool)
    (xval sval bmval : List ℚ) (now : String) : Except RunError Doc :=
  if xval.length ≠ sval.length ∨ xval.length ≠ bmval.length then
    Except.error RunError.integrityError
  else if xval.isEmpty then Except.error RunError.valueError
  else Except.ok (buildDoc excelName imgPath imgExists xval sval bmval now)

/-- Titles of the top-level sections of a document, in body order. -/
def docSectionTitles (d : Doc) : List String :=
  d.body.filterMap (fun it =>
    match it with
    | DocItem.sec s => some s.title
    | DocItem.blk _ => none)

/-- The final block of the final section of a document: in every built
report this is the generation timestamp of line 502. -/
def docTimestamp (d : Doc) : Option Block :=
  match d.body.getLast? with
  | some (DocItem.sec s) =>
      match s.items.getLast? with
      | some (SecItem.blk b) => some b
      | _ => none
  | _ => none

/-- The elementwise absolute value used by the program agrees with the
mathematical one. -/
theorem absQ_eq_abs (q : ℚ) : absQ q = |q| := by
  unfold absQ
  split_ifs with h
  · exact (abs_of_neg h).symm
  · exact (abs_of_nonneg (not_lt.mp h)).symm

/-- A fold of min from a value below a fold of max start stays below. -/
theorem foldl_min_le_foldl_max :
    ∀ (l : List ℚ) (a b : ℚ), a ≤ b → l.foldl min a ≤ l.foldl max b := by
  intro l
  induction l with
  | nil => intro a b hab; simpa using hab
  | cons c t ih =>
    intro a b hab
    simp only [List.foldl_cons]
    exact ih (min a c) (max b c)
      (le_trans (min_le_left a c) (le_trans hab (le_max_left b c)))

/-- On a nonempty series the minimum is at most the maximum. -/
theorem listMin_le_listMax (l : List ℚ) (h : l ≠ []) : listMin l ≤ listMax l := by
  cases l with
  | nil => exact absurd rfl h
  | cons a t => exact foldl_min_le_foldl_max t a a le_rfl

/-- The corrected range of the line diagram is strictly positive. -/
theorem sfdSRange_pos (sval : List ℚ) : 0 < sfdSRange sval := by
  unfold sfdSRange
  split_ifs with h1
  · exact lt_of_lt_of_le one_pos (le_max_right _ 1)
  · have h2 : (1 : ℚ) / 1000000 ≤ listMax sval - listMin sval := not_lt.mp h1
    linarith

/-- The two duplicated range computations are the same function. -/
theorem bmdBMRange_eq_sfdSRange (l : List ℚ) : bmdBMRange l = sfdSRange l := rfl

/-- Every nonempty series has an entry of minimal key value. -/
theorem exists_key_min (key : ℚ → ℚ) :
    ∀ l : List ℚ, l ≠ [] → ∃ v ∈ l, ∀ w ∈ l, key v ≤ key w := by
  intro l
  induction l with
  | nil => intro h; exact absurd rfl h
  | cons a t ih =>
    intro _
    rcases eq_or_ne t [] with rfl | ht
    · refine ⟨a, List.mem_cons_self a [], ?_⟩
      intro w hw
      have hwa : w = a := by simpa using hw
      subst hwa; exact le_rfl
    · obtain ⟨v, hv, hmin⟩ := ih ht
      by_cases hk : key a ≤ key v
      · refine ⟨a, List.mem_cons_self a t, ?_⟩
        intro w hw
        rcases List.mem_cons.mp hw with h1 | h2
        · subst h1; exact le_rfl
        · exact le_trans hk (hmin w h2)
      · refine ⟨v, List.mem_cons_of_mem a hv, ?_⟩
        intro w hw
        rcases List.mem_cons.mp hw with h1 | h2
        · subst h1; exact le_of_not_le hk
        · exact hmin w h2

/-- Every nonempty series has an entry of maximal key value. -/
theorem exists_key_max (key : ℚ → ℚ) (l : List ℚ) (h : l ≠ []) :
    ∃ v ∈ l, ∀ w ∈ l, key w ≤ key v := by
  obtain ⟨v, hv, hmin⟩ := exists_key_min (fun x => -(key x)) l h
  refine ⟨v, hv, fun w hw => ?_⟩
  have h2 := hmin w hw
  simpa using h2

/-- argminKey returns an in-range index whose key value is a global
minimum, and every strictly earlier index has a strictly larger key
value: the first-index tie break of np.argmin. -/
theorem argminKey_spec (key : ℚ → ℚ) (l : List ℚ) (h : l ≠ []) :
    argminKey key l < l.length
    ∧ (∀ w ∈ l, key (l.getD (argminKey key l) 0) ≤ key w)
    ∧ (∀ j, j < argminKey key l → key (l.getD (argminKey key l) 0) < key (l.getD j 0)) := by
  obtain ⟨v, hv, hmin⟩ := exists_key_min key l h
  have hex : ∃ x ∈ l, (fun u => decide (∀ w ∈ l, key u ≤ key w)) x = true :=
    ⟨v, hv, decide_eq_true hmin⟩
  have hlt : l.findIdx (fun u => decide (∀ w ∈ l, key u ≤ key w)) < l.length :=
    List.findIdx_lt_length_of_exists hex
  have hlt2 : argminKey key l < l.length := hlt
  have hgd : l.getD (argminKey key l) 0 = l.get ⟨argminKey key l, hlt2⟩ := by
    rw [List.getD_eq_getElem l 0 hlt2]
    rfl
  have hp : (fun u => decide (∀ w ∈ l, key u ≤ key w)) (l.get ⟨argminKey key l, hlt2⟩) = true := by
    have h3 := @List.findIdx_getElem ℚ (fun u => decide (∀ w ∈ l, key u ≤ key w)) l hlt
    simpa using h3
  have hmin2 : ∀ w ∈ l, key (l.getD (argminKey key l) 0) ≤ key w := by
    intro w hw
    have h4 := of_decide_eq_true hp
    rw [hgd]
    exact h4 w hw
  refine ⟨hlt2, hmin2, ?_⟩
  intro j hj
  have hjlen : j < l.length := lt_trans hj hlt2
  have hfalse : (fun u => decide (∀ w ∈ l, key u ≤ key w)) (l.get ⟨j, hjlen⟩) = false := by
    have h5 := @List.not_of_lt_findIdx ℚ (fun u => decide (∀ w ∈ l, key u ≤ key w)) l j hj
    simpa using h5
  have hnall : ¬ (∀ w ∈ l, key (l.get ⟨j, hjlen⟩) ≤ key w) := of_decide_eq_false hfalse
  push_neg at hnall
  obtain ⟨w, hw, hwlt⟩ := hnall
  have h6 : key (l.getD (argminKey key l) 0) ≤ key w := hmin2 w hw
  have h7 : l.getD j 0 = l.get ⟨j, hjlen⟩ := by
    rw [List.getD_eq_getElem l 0 hjlen]
    rfl
  rw [h7]
  exact lt_of_le_of_lt h6 hwlt

/-- argmaxKey returns an in-range index whose key value is a global
maximum, and every strictly earlier index has a strictly smaller key
value: the first-index tie break of np.argmax. -/
theorem argmaxKey_spec (key : ℚ → ℚ) (l : List ℚ) (h : l ≠ []) :
    argmaxKey key l < l.length
    ∧ (∀ w ∈ l, key w ≤ key (l.getD (argmaxKey key l) 0))
    ∧ (∀ j, j < argmaxKey key l → key (l.getD j 0) < key (l.getD (argmaxKey key l) 0)) := by
  obtain ⟨v, hv, hmax⟩ := exists_key_max key l h
  have hex : ∃ x ∈ l, (fun u => decide (∀ w ∈ l, key w ≤ key u)) x = true :=
    ⟨v, hv, decide_eq_true hmax⟩
  have hlt : l.findIdx (fun u => decide (∀ w ∈ l, key w ≤ key u)) < l.length :=
    List.findIdx_lt_length_of_exists hex
  have hlt2 : argmaxKey key l < l.length := hlt
  have hgd : l.getD (argmaxKey key l) 0 = l.get ⟨argmaxKey key l, hlt2⟩ := by
    rw [List.getD_eq_getElem l 0 hlt2]
    rfl
  have hp : (fun u => decide (∀ w ∈ l, key w ≤ key u)) (l.get ⟨argmaxKey key l, hlt2⟩) = true := by
    have h3 := @List.findIdx_getElem ℚ (fun u => decide (∀ w ∈ l, key w ≤ key u)) l hlt
    simpa using h3
  have hmax2 : ∀ w ∈ l, key w ≤ key (l.getD (argmaxKey key l) 0) := by
    intro w hw
    have h4 := of_decide_eq_true hp
    rw [hgd]
    exact h4 w hw
  refine ⟨hlt2, hmax2, ?_⟩
  intro j hj
  have hjlen : j < l.length := lt_trans hj hlt2
  have hfalse : (fun u => decide (∀ w ∈ l, key w ≤ key u)) (l.get ⟨j, hjlen⟩) = false := by
    have h5 := @List.not_of_lt_findIdx ℚ (fun u => decide (∀ w ∈ l, key w ≤ key u)) l j hj
    simpa using h5
  have hnall : ¬ (∀ w ∈ l, key w ≤ key (l.get ⟨j, hjlen⟩)) := of_decide_eq_false hfalse
  push_neg at hnall
  obtain ⟨w, hw, hwlt⟩ := hnall
  have h6 : key w ≤ key (l.getD (argmaxKey key l) 0) := hmax2 w hw
  have h7 : l.getD j 0 = l.get ⟨j, hjlen⟩ := by
    rw [List.getD_eq_getElem l 0 hjlen]
    rfl
  rw [h7]
  exact lt_of_lt_of_le hwlt h6

/-- C1: for every valid dataset the reported zero shear crossing is the
position at the first index of minimal absolute shear: the index is in
range, its absolute shear is a global minimum over the series, every
strictly earlier index has strictly larger absolute shear, the reported
position is the x value at that index, and the SFD observations carry
exactly that position (no interpolated root). -/
theorem zero_shear_crossing_first_min (xval sval : List ℚ)
    (h : sval ≠ []) (hlen : xval.length = sval.length) :
    argminAbs sval < sval.length
    ∧ argminAbs sval < xval.length
    ∧ (∀ w ∈ sval, absQ (sval.getD (argminAbs sval) 0) ≤ absQ w)
    ∧ (∀ j, j < argminAbs sval → absQ (sval.getD (argminAbs sval) 0) < absQ (sval.getD j 0))
    ∧ zeroShearPos xval sval = xval.getD (argminAbs sval) 0
    ∧ Block.latex ("\\item Zero shear occurs at: " ++ fmt2 (zeroShearPos xval sval) ++ " m")
        ∈ sfdSubsectionBlocks xval sval := by
  obtain ⟨h1, h2, h3⟩ := argminKey_spec absQ sval h
  exact ⟨h1, hlen ▸ h1, h2, h3, rfl, by simp [sfdSubsectionBlocks]⟩

/-- C1 witness: on the example dataset x = [0,1,2,3,4],
shear = [10,5,0,-5,-10], the crossing index is 2 and the reported
position is 2. -/
theorem zero_shear_crossing_first_min_witness :
    ([10, 5, 0, -5, -10] : List ℚ) ≠ []
    ∧ ([0, 1, 2, 3, 4] : List ℚ).length = ([10, 5, 0, -5, -10] : List ℚ).length
    ∧ argminAbs [10, 5, 0, -5, -10] = 2
    ∧ zeroShearPos [0, 1, 2, 3, 4] [10, 5, 0, -5, -10] = 2 := by
  have h := zero_shear_crossing_first_min [0, 1, 2, 3, 4] [10, 5, 0, -5, -10]
    (by simp) (by simp)
  have hidx : argminAbs [10, 5, 0, -5, -10] = 2 := by
    norm_num [argminAbs, argminKey, List.findIdx_cons, absQ]
  refine ⟨by simp, by simp, hidx, ?_⟩
  rw [h.2.2.2.2.1, hidx]
  rfl

/-- C2: the area (bending moment) diagram anchors its lower bound at 0
when the series never goes negative, and otherwise sets it to the minimum
less a tenth of the (degeneracy-corrected) range; the upper bound is the
maximum plus a tenth of that range, and the range is exactly max minus
min whenever that difference is at least 1e-6. -/
theorem bmd_axis_lower_bound (xval y : List ℚ) (h : y ≠ []) :
    (0 ≤ listMin y → (bmdDiagram xval y).yMin = 0)
    ∧ (listMin y < 0 → (bmdDiagram xval y).yMin = listMin y - (1 / 10) * bmdBMRange y)
    ∧ (bmdDiagram xval y).yMax = listMax y + (1 / 10) * bmdBMRange y
    ∧ ((1 : ℚ) / 1000000 ≤ listMax y - listMin y → bmdBMRange y = listMax y - listMin y) := by
  refine ⟨?_, ?_, rfl, ?_⟩
  · intro h0
    have h1 : ¬ (listMin y < 0) := not_lt.mpr h0
    simp [bmdDiagram, h1]
  · intro h0
    simp [bmdDiagram, h0]
  · intro h0
    unfold bmdBMRange
    rw [if_neg (not_lt.mpr h0)]

/-- C2 witness: values [0,5,10,5,0] give lower bound 0; values [-3,2,8]
have range 11 and give lower bound -4.1. -/
theorem bmd_axis_lower_bound_witness :
    ([0, 5, 10, 5, 0] : List ℚ) ≠ []
    ∧ (0 : ℚ) ≤ listMin [0, 5, 10, 5, 0]
    ∧ (bmdDiagram [0, 1, 2, 3, 4] [0, 5, 10, 5, 0]).yMin = 0
    ∧ listMin ([-3, 2, 8] : List ℚ) < 0
    ∧ bmdBMRange [-3, 2, 8] = 11
    ∧ (bmdDiagram [0, 1, 2] [-3, 2, 8]).yMin = -41 / 10 := by
  have hmin1 : (0 : ℚ) ≤ listMin [0, 5, 10, 5, 0] := by norm_num [listMin]
  have hmin2 : listMin ([-3, 2, 8] : List ℚ) < 0 := by norm_num [listMin]
  have h1 := (bmd_axis_lower_bound [0, 1, 2, 3, 4] [0, 5, 10, 5, 0] (by simp)).1 hmin1
  have h2 := (bmd_axis_lower_bound [0, 1, 2] [-3, 2, 8] (by simp)).2.1 hmin2
  have hrange : bmdBMRange [-3, 2, 8] = 11 := by
    norm_num [bmdBMRange, listMin, listMax]
  refine ⟨by simp, hmin1, h1, hmin2, hrange, ?_⟩
  rw [h2, hrange]
  norm_num [listMin]

/-- C3: the line (shear) diagram has bounds min - range/10 and
max + range/10, where the range is max - min unless that difference is
below 1e-6, in which case it is max(abs(min), abs(max), 1); consequently
yMax is strictly above yMin for every nonempty series. -/
theorem sfd_axis_margin_strict (xval sval : List ℚ) (h : sval ≠ []) :
    (sfdDiagram xval sval).yMin = listMin sval - (1 / 10) * sfdSRange sval
    ∧ (sfdDiagram xval sval).yMax = listMax sval + (1 / 10) * sfdSRange sval
    ∧ sfdSRange sval =
        (if listMax sval - listMin sval < 1 / 1000000 then
          max (max (absQ (listMin sval)) (absQ (listMax sval))) 1
         else listMax sval - listMin sval)
    ∧ (sfdDiagram xval sval).yMin < (sfdDiagram xval sval).yMax := by
  refine ⟨rfl, rfl, rfl, ?_⟩
  have h1 := sfdSRange_pos sval
  have h2 := listMin_le_listMax sval h
  show listMin sval - (1 / 10) * sfdSRange sval < listMax sval + (1 / 10) * sfdSRange sval
  linarith

/-- C3 witness: shear [10,5,0,-5,-10] has range 20 and bounds
[-12, 12]; the constant-zero series still gets strictly ordered
bounds. -/
theorem sfd_axis_margin_strict_witness :
    ([10, 5, 0, -5, -10] : List ℚ) ≠ []
    ∧ (sfdDiagram [0, 1, 2, 3, 4] [10, 5, 0, -5, -10]).yMin = -12
    ∧ (sfdDiagram [0, 1, 2, 3, 4] [10, 5, 0, -5, -10]).yMax = 12
    ∧ ([0, 0] : List ℚ) ≠ []
    ∧ (sfdDiagram [0, 1] [0, 0]).yMin < (sfdDiagram [0, 1] [0, 0]).yMax := by
  have h1 := sfd_axis_margin_strict [0, 1, 2, 3, 4] [10, 5, 0, -5, -10] (by simp)
  have h2 := sfd_axis_margin_strict [0, 1] [0, 0] (by simp)
  refine ⟨by simp, ?_, ?_, by simp, h2.2.2.2⟩
  · rw [h1.1]
    norm_num [sfdSRange, listMin, listMax, absQ]
  · rw [h1.2.1]
    norm_num [sfdSRange, listMin, listMax, absQ]

/-- C4 counterexample: with every x value zero the diagram computations do
not fail at all (no DegenerateAxisError exists anywhere in the code);
both succeed and the x axis collapses to [0, 0], so the claimed failure
and the claimed strict xMax > xMin are both false at this input. -/
theorem xaxis_all_zero_no_failure :
    sfdplot [0, 0] [1, 2] = Except.ok (sfdDiagram [0, 0] [1, 2])
    ∧ bmdplot [0, 0] [1, 2] = Except.ok (bmdDiagram [0, 0] [1, 2])
    ∧ (sfdDiagram [0, 0] [1, 2]).xMax = (sfdDiagram [0, 0] [1, 2]).xMin
    ∧ (bmdDiagram [0, 0] [1, 2]).xMax = (bmdDiagram [0, 0] [1, 2]).xMin := by
  refine ⟨rfl, rfl, ?_, ?_⟩ <;> norm_num [sfdDiagram, bmdDiagram, listMax]

/-- C4 (amended): for nonempty inputs neither diagram computation fails;
the x-axis bounds are always [0, max(xval)], and they are strictly
ordered exactly when max(xval) is positive (an all-zero x series yields
the degenerate bounds [0, 0] without any error). -/
theorem xaxis_bounds (xval sval bmval : List ℚ)
    (hx : xval ≠ []) (hs : sval ≠ []) (hb : bmval ≠ []) :
    sfdplot xval sval = Except.ok (sfdDiagram xval sval)
    ∧ bmdplot xval bmval = Except.ok (bmdDiagram xval bmval)
    ∧ (sfdDiagram xval sval).xMin = 0 ∧ (sfdDiagram xval sval).xMax = listMax xval
    ∧ (bmdDiagram xval bmval).xMin = 0 ∧ (bmdDiagram xval bmval).xMax = listMax xval
    ∧ ((sfdDiagram xval sval).xMin < (sfdDiagram xval sval).xMax ↔ 0 < listMax xval)
    ∧ ((bmdDiagram xval bmval).xMin < (bmdDiagram xval bmval).xMax ↔ 0 < listMax xval) := by
  have hxe : xval.isEmpty = false := by simpa [List.isEmpty_iff] using hx
  have hse : sval.isEmpty = false := by simpa [List.isEmpty_iff] using hs
  have hbe : bmval.isEmpty = false := by simpa [List.isEmpty_iff] using hb
  refine ⟨?_, ?_, rfl, rfl, rfl, rfl, Iff.rfl, Iff.rfl⟩
  · simp [sfdplot, hxe, hse]
  · simp [bmdplot, hxe, hbe]

/-- C4 witness: on x = [0,1,2,3,4] both plots succeed with x bounds
[0, 4], strictly ordered. -/
theorem xaxis_bounds_witness :
    ([0, 1, 2, 3, 4] : List ℚ) ≠ []
    ∧ sfdplot [0, 1, 2, 3, 4] [10, 5, 0, -5, -10]
        = Except.ok (sfdDiagram [0, 1, 2, 3, 4] [10, 5, 0, -5, -10])
    ∧ (sfdDiagram [0, 1, 2, 3, 4] [10, 5, 0, -5, -10]).xMax = 4
    ∧ (sfdDiagram [0, 1, 2, 3, 4] [10, 5, 0, -5, -10]).xMin
        < (sfdDiagram [0, 1, 2, 3, 4] [10, 5, 0, -5, -10]).xMax := by
  have h := xaxis_bounds [0, 1, 2, 3, 4] [10, 5, 0, -5, -10] [0, 8, 12, 8, 0]
    (by simp) (by simp) (by simp)
  have hmax : listMax ([0, 1, 2, 3, 4] : List ℚ) = 4 := by norm_num [listMax]
  refine ⟨by simp, h.1, ?_, ?_⟩
  · rw [h.2.2.2.1, hmax]
  · rw [h.2.2.1, h.2.2.2.1, hmax]
    norm_num

/-- C9: truncating a statistic to two decimals and reading the decimal
string back moves the value by at most 0.005. -/
theorem fmt2_roundtrip (v : ℚ) : |fmt2Val v - v| ≤ 1 / 200 := by
  unfold fmt2Val
  have h := abs_sub_round (100 * v)
  have h2 : (round (100 * v) : ℚ) / 100 - v = -((100 * v - (round (100 * v) : ℚ)) / 100) := by
    ring
  rw [h2, abs_neg, abs_div]
  rw [abs_of_pos (show (0 : ℚ) < 100 by norm_num)]
  linarith

/-- C10: the critical-section Magnitude for shear is the signed value at
the first index of maximal absolute shear: the index is in range,
dominates every entry in absolute value, beats all earlier indices
strictly, and the Engineering Interpretation block reports the signed
entry itself, not its absolute value. -/
theorem max_shear_signed_magnitude (xval sval bmval : List ℚ) (h : sval ≠ []) :
    argmaxAbs sval < sval.length
    ∧ (∀ w ∈ sval, absQ w ≤ absQ (sval.getD (argmaxAbs sval) 0))
    ∧ (∀ j, j < argmaxAbs sval → absQ (sval.getD j 0) < absQ (sval.getD (argmaxAbs sval) 0))
    ∧ maxShearMagnitude sval = sval.getD (argmaxAbs sval) 0
    ∧ Block.text ("Magnitude: " ++ fmt2 (maxShearMagnitude sval) ++ " kN")
        ∈ criticalSectionsBlocks xval sval bmval := by
  obtain ⟨h1, h2, h3⟩ := argmaxKey_spec absQ sval h
  exact ⟨h1, h2, h3, rfl, by simp [criticalSectionsBlocks]⟩

/-- C10 witness: for shear [3, -10] the largest-magnitude entry is the
negative -10 at index 1, and the reported magnitude renders as
-10.00. -/
theorem max_shear_signed_magnitude_witness :
    ([3, -10] : List ℚ) ≠ []
    ∧ argmaxAbs [3, -10] = 1
    ∧ maxShearMagnitude [3, -10] = -10
    ∧ maxShearMagnitude ([3, -10] : List ℚ) < 0
    ∧ fmt2 (maxShearMagnitude [3, -10]) = "-10.00" := by
  have h := max_shear_signed_magnitude [0, 1] [3, -10] [0, 0] (by simp)
  have hidx : argmaxAbs [3, -10] = 1 := by
    norm_num [argmaxAbs, argmaxKey, List.findIdx_cons, absQ]
  have hval : maxShearMagnitude [3, -10] = -10 := by
    rw [h.2.2.2.1, hidx]
    rfl
  refine ⟨by simp, hidx, hval, by rw [hval]; norm_num, ?_⟩
  rw [hval]
  norm_num [fmt2, round_eq]
  decide

/-- C5 counterexample: with column labels x, shear force, Bending Moment
every required field is present once labels are trimmed and compared
case-insensitively, yet validation fails and reports Shear force as
missing: the code matches labels case-sensitively. -/
theorem schema_case_insensitive_refuted :
    (∀ c ∈ required_columns, ∃ s ∈ ["x", "shear force", "Bending Moment"],
        lower (strip s) = lower c)
    ∧ forcedata ["x", "shear force", "Bending Moment"]
        = SchemaCheck.missingColumns ["Shear force"] := by
  constructor
  · decide
  · rfl

/-- C5 (amended): validation succeeds exactly when every required field
label occurs, by exact case-sensitive comparison, among the
whitespace-trimmed column labels; any failure reports a nonempty list of
missing labels and yields no dataset (the program exits before producing
any artifact). -/
theorem schema_missing_iff (columns : List String) :
    (forcedata columns = SchemaCheck.ok (columns.map strip) ↔
      ∀ c ∈ required_columns, c ∈ columns.map strip)
    ∧ (∀ m, forcedata columns = SchemaCheck.missingColumns m → m ≠ []) := by
  constructor
  · simp only [forcedata]
    split_ifs with he
    · simp only [List.isEmpty_iff, List.filter_eq_nil_iff] at he
      constructor
      · intro _ c hc
        have h2 := he c hc
        simpa using h2
      · intro _
        rfl
    · simp only [List.isEmpty_iff, List.filter_eq_nil_iff] at he
      constructor
      · intro hcontra
        exact absurd hcontra (by simp)
      · intro hall
        exfalso
        apply he
        intro c hc
        simpa using hall c hc
  · intro m hm
    simp only [forcedata] at hm
    split_ifs at hm with he
    injection hm with hmm
    intro hme
    apply he
    rw [hmm, hme]
    rfl

/-- C5 witness: the exact labels validate, and a table with only the x
column fails with a nonempty missing list. -/
theorem schema_missing_iff_witness :
    forcedata ["x", "Shear force", "Bending Moment"]
      = SchemaCheck.ok (["x", "Shear force", "Bending Moment"].map strip)
    ∧ (["Shear force", "Bending Moment"] : List String) ≠ [] := by
  have h := schema_missing_iff ["x", "Shear force", "Bending Moment"]
  have h2 := schema_missing_iff ["x"]
  refine ⟨h.1.mpr (by decide), ?_⟩
  exact h2.2 ["Shear force", "Bending Moment"] (by rfl)

/-- C6: when the three arrays differ in length the pipeline stops with
the integrity error: no statistics are computed and no document is
produced. -/
theorem integrity_mismatch_aborts (excelName imgPath : String) (imgExists : Bool)
    (xval sval bmval : List ℚ) (now : String)
    (h : xval.length ≠ sval.length ∨ xval.length ≠ bmval.length) :
    reportgen excelName imgPath imgExists xval sval bmval now
      = Except.error RunError.integrityError := by
  unfold reportgen
  rw [if_pos h]

/-- C6 witness: arrays of lengths 1, 2, 1 abort with the integrity
error. -/
theorem integrity_mismatch_aborts_witness :
    (([0] : List ℚ).length ≠ ([1, 2] : List ℚ).length
      ∨ ([0] : List ℚ).length ≠ ([3] : List ℚ).length)
    ∧ reportgen "force_table.xlsx" "ssbeam.png" true [0] [1, 2] [3] "2025-01-01 00:00:00"
        = Except.error RunError.integrityError :=
  ⟨Or.inl (by simp),
   integrity_mismatch_aborts "force_table.xlsx" "ssbeam.png" true [0] [1, 2] [3]
     "2025-01-01 00:00:00" (Or.inl (by simp))⟩

/-- C7: a missing beam image never aborts the report: building still
succeeds, the Beam Description subsection of the Introduction carries the
italic placeholder note in place of the figure, and no figure block for
the image is present. -/
theorem missing_image_placeholder (excelName imgPath : String)
    (xval sval bmval : List ℚ) (now : String)
    (h1 : xval.length = sval.length) (h2 : xval.length = bmval.length) (h3 : xval ≠ []) :
    reportgen excelName imgPath false xval sval bmval now
      = Except.ok (buildDoc excelName imgPath false xval sval bmval now)
    ∧ DocItem.sec (introSection excelName imgPath false xval xval.length)
        ∈ (buildDoc excelName imgPath false xval sval bmval now).body
    ∧ SecItem.sub "Beam Description" (beamDescriptionBlocks imgPath false)
        ∈ (introSection excelName imgPath false xval xval.length).items
    ∧ Block.italic ("Note: Beam image not found at " ++ imgPath)
        ∈ beamDescriptionBlocks imgPath false
    ∧ Block.figureImage imgPath "0.8\\textwidth" "Simply Supported Beam Configuration"
        ∉ beamDescriptionBlocks imgPath false := by
  have hxe : xval.isEmpty = false := by simpa [List.isEmpty_iff] using h3
  refine ⟨?_, ?_, ?_, ?_, ?_⟩
  · unfold reportgen
    rw [if_neg (by push_neg; exact ⟨h1, h2⟩), hxe]
    rfl
  · simp [buildDoc, frontMatter]
  · simp [introSection]
  · simp [beamDescriptionBlocks]
  · simp [beamDescriptionBlocks]

/-- C7 witness: with the image absent, the concrete dataset
x = [0,1], shear = [1,2], moment = [2,3] still builds, and the
placeholder note is in the Beam Description blocks. -/
theorem missing_image_placeholder_witness :
    ([0, 1] : List ℚ).length = ([1, 2] : List ℚ).length
    ∧ ([0, 1] : List ℚ).length = ([2, 3] : List ℚ).length
    ∧ ([0, 1] : List ℚ) ≠ []
    ∧ reportgen "force_table.xlsx" "ssbeam.png" false [0, 1] [1, 2] [2, 3] "2025-01-01 00:00:00"
        = Except.ok (buildDoc "force_table.xlsx" "ssbeam.png" false [0, 1] [1, 2] [2, 3]
            "2025-01-01 00:00:00")
    ∧ Block.italic ("Note: Beam image not found at " ++ "ssbeam.png")
        ∈ beamDescriptionBlocks "ssbeam.png" false := by
  have h := missing_image_placeholder "force_table.xlsx" "ssbeam.png" [0, 1] [1, 2] [2, 3]
    "2025-01-01 00:00:00" (by simp) (by simp) (by simp)
  exact ⟨by simp, by simp, by simp, h.1, h.2.2.2.1⟩

/-- C8 counterexample: two builds over the same dataset, statistics,
geometry and metadata but at different wall-clock times produce different
document models, because line 502 embeds datetime.now() in the
Conclusion. -/
theorem report_timestamp_dependence :
    buildDoc "force_table.xlsx" "ssbeam.png" true [0, 1] [1, 2] [2, 3] "2025-01-01 00:00:00"
      ≠ buildDoc "force_table.xlsx" "ssbeam.png" true [0, 1] [1, 2] [2, 3]
          "2025-01-02 00:00:00" := by
  intro h
  have h2 := congrArg docTimestamp h
  have e1 : docTimestamp (buildDoc "force_table.xlsx" "ssbeam.png" true [0, 1] [1, 2] [2, 3]
      "2025-01-01 00:00:00") = some (Block.text "2025-01-01 00:00:00") := rfl
  have e2 : docTimestamp (buildDoc "force_table.xlsx" "ssbeam.png" true [0, 1] [1, 2] [2, 3]
      "2025-01-02 00:00:00") = some (Block.text "2025-01-02 00:00:00") := rfl
  rw [e1, e2] at h2
  simp at h2

/-- C8 (amended): the document model is a deterministic function of the
dataset, statistics, geometry, metadata and the generation timestamp
(which the Conclusion embeds as its final block), and the top-level
sections are always, in order, Introduction, Input Data, Structural
Analysis, Engineering Interpretation, Conclusion. -/
theorem section_order_fixed (excelName imgPath : String) (imgExists : Bool)
    (xval sval bmval : List ℚ) (now : String) :
    docSectionTitles (buildDoc excelName imgPath imgExists xval sval bmval now)
      = ["Introduction", "Input Data", "Structural Analysis",
         "Engineering Interpretation", "Conclusion"]
    ∧ docTimestamp (buildDoc excelName imgPath imgExists xval sval bmval now)
      = some (Block.text now) :=
  ⟨rfl, rfl⟩

end DocGen
